import Mathlib

/-!
Shallow embedding of the WhatsApp bridge connection-lifecycle core
(source: src/index.js).  The global mutable variables of the source
(qrBase64, connectionStatus, lastError, the session folder contents and
the pending reconnect timer) become one explicit state record; the
asynchronous callbacks (the connection.update handler, the QR-wait
timeout, startBridge, the HTTP handlers) become pure state-transition
functions.  Routine informational logging is out of scope per the spec;
the observability sink is modelled only for the diagnostic note that the
QR-wait timeout records.  The logged-out sentinel is a constant of the
external protocol library, so every function that consults it takes it
as a parameter.
-/

namespace Bridge

/-- Substring search helper: does the candidate list start with the
pattern list?  Used to model the JavaScript String.includes test. -/
def strStartsWith : List Char → List Char → Bool
  | [], _ => true
  | _ :: _, [] => false
  | p :: ps, c :: cs => p == c && strStartsWith ps cs

/-- Does the pattern occur as a contiguous run anywhere in the list? -/
def strContainsL (pat : List Char) : List Char → Bool
  | [] => strStartsWith pat []
  | c :: cs => strStartsWith pat (c :: cs) || strContainsL pat cs

/-- Model of the JavaScript expression s.includes(pat): substring
containment on strings (src/index.js line 71, lastError.includes). -/
def strContains (s pat : String) : Bool :=
  strContainsL pat.data s.data

/-- Rendering of a possibly-absent numeric disconnect code inside a
JavaScript template literal: a number prints in decimal and undefined
prints as the word undefined (src/index.js lines 144 and 145). -/
def reprReason : Option Nat → String
  | some n => Nat.repr n
  | none => "undefined"

/-- The global mutable state of src/index.js: qrBase64 (line 18),
connectionStatus (line 19), lastError (line 20), the contents of the
session credential folder (wa_session, line 23), the pending
setTimeout(startBridge, delay) reconnect timer if one is scheduled
(line 155), and the observability sink (console/error log). -/
structure BridgeState where
  qrBase64 : Option String
  connectionStatus : String
  lastError : Option String
  sessionFiles : List String
  pendingRestart : Option Nat
  sink : List String
deriving Repr, DecidableEq

/-- Process start (src/index.js lines 18-21): no QR, status
Disconnected, no error, no timer; the credential folder persists across
process restarts, so its contents are a parameter. -/
def initState (files : List String) : BridgeState :=
  { qrBase64 := none
    connectionStatus := "Disconnected"
    lastError := none
    sessionFiles := files
    pendingRestart := none
    sink := [] }

/-- The fields of one connection.update event that the handler reads
(src/index.js line 127): the connection phase string, the disconnect
status code reached through the optional chain
lastDisconnect.error.output.statusCode, and the QR payload. -/
structure ConnUpdate where
  connection : Option String
  statusCode : Option Nat
  qr : Option String
deriving Repr, DecidableEq

/-- Abstract model of QRCode.toDataURL (external collaborator,
src/index.js line 133): some data-URL string derived from the token;
only its presence matters to the core. -/
def toDataURL (q : String) : String :=
  "data:image/png;base64," ++ q

/-- The qr branch of the connection.update handler (src/index.js lines
130-137): store the rendered challenge, move to READY TO SCAN and clear
any previous error.  (The clearTimeout on line 131 cancels the QR-wait
timer; qrTimeoutFire below re-checks its guard at fire time, so a fired
stale timer is a no-op and the handle needs no explicit bookkeeping.) -/
def applyQr (u : ConnUpdate) (s : BridgeState) : BridgeState :=
  match u.qr with
  | some q =>
      { s with qrBase64 := some (toDataURL q)
               connectionStatus := "READY TO SCAN"
               lastError := none }
  | none => s

/-- The connection.update handler (src/index.js lines 126-165),
parametric in the external library constant DisconnectReason.loggedOut.
The qr branch runs first; a close event then records the stop status and
error and, unless the reason is the logged-out sentinel, schedules a
restart after 60000 ms for reason 405 and 5000 ms otherwise; an open
event moves to CONNECTED and clears the challenge and the error. -/
def connectionUpdate (loggedOut : Nat) (u : ConnUpdate) (s : BridgeState) :
    BridgeState :=
  let s1 := applyQr u s
  if u.connection = some "close" then
    let reason := u.statusCode
    let s2 :=
      { s1 with
          connectionStatus := "Stopped (Reason: " ++ reprReason reason ++ ")"
          lastError := some ("Connection closed with code: " ++ reprReason reason) }
    if reason ≠ some loggedOut then
      let delay : Nat := if reason = some 405 then 60000 else 5000
      { s2 with pendingRestart := some delay }
    else
      s2
  else if u.connection = some "open" then
    { s1 with connectionStatus := "CONNECTED", qrBase64 := none, lastError := none }
  else
    s1

/-- Deleting one file from the folder (fs.unlinkSync, src/index.js line
74): fails (none) when the file is absent, otherwise removes it. -/
def unlink (folder : List String) (file : String) : Option (List String) :=
  if file ∈ folder then some (folder.erase file) else none

/-- Delete each named file in turn, stopping at the first failure
(the forEach loop of src/index.js lines 73-75). -/
def unlinkFiles : List String → List String → Option (List String)
  | folder, [] => some folder
  | folder, f :: fs =>
      match unlink folder f with
      | some folder2 => unlinkFiles folder2 fs
      | none => none

/-- Credential Store invalidation: list the folder and delete every
listed file (src/index.js lines 67 and 73-75). -/
def invalidate (folder : List String) : Option (List String) :=
  unlinkFiles folder folder

/-- Total wrapper used inside startBridge: deleting the listed files
never actually fails, so the fallback branch is unreachable (proved
below as invalidate_eq_empty). -/
def clearSessionFiles (folder : List String) : List String :=
  (invalidate folder).getD folder

/-- startBridge (src/index.js lines 57-122) up to the point where
control passes to the external library.  Sets the Starting status
(line 58); clears the session folder when the recorded error mentions
405 and files exist (lines 66-78); err models a thrown failure in the
library-loading / socket-creation stage after the clearing block
(caught at lines 167-172: status Startup Error, lastError set).  The
QR-wait timeout armed on line 113 is modelled by qrTimeoutFire below.
qrBase64 and pendingRestart are not written by startBridge. -/
def startBridge (err : Option String) (s : BridgeState) : BridgeState :=
  let s1 := { s with connectionStatus := "Starting WhatsApp Library..." }
  let doClear :=
    (match s1.lastError with
     | some e => strContains e "405"
     | none => false) && decide (0 < s1.sessionFiles.length)
  let s2 :=
    if doClear then { s1 with sessionFiles := clearSessionFiles s1.sessionFiles }
    else s1
  match err with
  | some m => { s2 with connectionStatus := "Startup Error", lastError := some m }
  | none => s2

/-- The diagnostic lines the QR-wait timeout writes to the
observability sink (src/index.js lines 115-119). -/
def qrTimeoutMessages : List String :=
  ["CRITICAL: No QR code received after 10 seconds!",
   "This usually means:",
   "1. Server IP is blocked by WhatsApp",
   "2. Network/firewall blocking WhatsApp servers",
   "3. Baileys library needs updating"]

/-- The QR-wait timeout callback (src/index.js lines 113-122): if no QR
has arrived and the status is still Starting, append the diagnostic
note to the sink and record it in lastError; otherwise do nothing.  It
touches neither connectionStatus nor qrBase64 nor the timer state.
(qrBase64 is null or a nonempty data URL, so the JavaScript falsiness
test !qrBase64 is exactly the isNone test.) -/
def qrTimeoutFire (s : BridgeState) : BridgeState :=
  if s.qrBase64 = none ∧ s.connectionStatus = "Starting WhatsApp Library..." then
    { s with lastError := some "QR code timeout - possible network/firewall issue"
             sink := s.sink ++ qrTimeoutMessages }
  else s

/-- The recovery actions of the Disconnect Classifier taxonomy
(spec section 4.2). -/
inductive RecAction where
  | NoRetry
  | RetryAfter (ms : Nat)
  | InvalidateAndRetryAfter (ms : Nat)
deriving Repr, DecidableEq

/-- Refinement target written from the words of the spec policy table
(section 4.2): logged-out sentinel yields NoRetry, 405 yields
InvalidateAndRetryAfter(60 s), anything else including an absent code
yields RetryAfter(5 s).  The source inlines this policy in the close
branch of connectionUpdate; the claim theorems relate the two. -/
def classifySpec (loggedOut : Nat) (reason : Option Nat) : RecAction :=
  if reason = some loggedOut then RecAction.NoRetry
  else if reason = some 405 then RecAction.InvalidateAndRetryAfter 60000
  else RecAction.RetryAfter 5000

/-- Outcome of one POST /api/send-message request (src/index.js lines
176-196): an HTTP 401, the HTTP 503 socket-not-initialized failure, the
success reply, or the HTTP 500 reply carrying the caught error text. -/
inductive SendOutcome where
  | unauthorized
  | noSocket
  | sent
  | sendError (msg : String)
deriving Repr, DecidableEq

/-- Model of the JavaScript to.replace removing every non-digit
(src/index.js line 189): keep only the decimal digits. -/
def digitsOnly (t : String) : String :=
  String.mk (t.data.filter Char.isDigit)

/-- The POST /api/send-message handler (src/index.js lines 176-196).
The external socket is modelled by its presence flag (the socket
variable is null until the first startBridge reaches socket creation)
and by sendMessage, the library call mapping the jid and text to
success or a failure message; a thrown failure is caught on line 192
and reported as the 500 outcome, so the handler is total.  The handler
never writes the lifecycle state, which is returned unchanged. -/
def sendMessageHandler (token : String) (auth : Option String)
    (socketPresent : Bool) (sendMessage : String → String → Except String Unit)
    (dest msg : String) (s : BridgeState) : SendOutcome × BridgeState :=
  if auth ≠ some ("Bearer " ++ token) then
    (SendOutcome.unauthorized, s)
  else if ¬ socketPresent then
    (SendOutcome.noSocket, s)
  else
    let jid := digitsOnly dest ++ "@s.whatsapp.net"
    match sendMessage jid msg with
    | Except.ok _ => (SendOutcome.sent, s)
    | Except.error m => (SendOutcome.sendError m, s)

/-- The externally observable tuple served by GET /api/status
(src/index.js lines 199-205). -/
structure StatusSnapshot where
  status : String
  hasQR : Bool
  error : Option String
deriving Repr, DecidableEq

/-- GET /api/status (src/index.js lines 199-205): a pure projection of
the lifecycle state. -/
def getStatus (s : BridgeState) : StatusSnapshot :=
  { status := s.connectionStatus, hasQR := s.qrBase64.isSome, error := s.lastError }

/-- One asynchronous step of the bridge process: a connection.update
event, a (re)start of startBridge, the QR-wait timeout firing, or a
scheduled reconnect timer firing (which consumes the timer and runs
startBridge). -/
inductive Step (loggedOut : Nat) : BridgeState → BridgeState → Prop where
  | update (u : ConnUpdate) (s : BridgeState) :
      Step loggedOut s (connectionUpdate loggedOut u s)
  | start (err : Option String) (s : BridgeState) :
      Step loggedOut s (startBridge err s)
  | qrTimeout (s : BridgeState) :
      Step loggedOut s (qrTimeoutFire s)
  | restartFire (d : Nat) (err : Option String) (s : BridgeState) :
      s.pendingRestart = some d →
      Step loggedOut s (startBridge err { s with pendingRestart := none })

/-- States reachable from a fresh process start (with any persisted
credential folder contents) through the asynchronous steps. -/
inductive Reachable (loggedOut : Nat) : BridgeState → Prop where
  | init (files : List String) : Reachable loggedOut (initState files)
  | step {s t : BridgeState} :
      Reachable loggedOut s → Step loggedOut s t → Reachable loggedOut t

/-! Helper lemmas about the embedded operations. -/

theorem applyQr_pendingRestart (u : ConnUpdate) (s : BridgeState) :
    (applyQr u s).pendingRestart = s.pendingRestart := by
  cases h : u.qr <;> simp [applyQr, h]

theorem applyQr_sessionFiles (u : ConnUpdate) (s : BridgeState) :
    (applyQr u s).sessionFiles = s.sessionFiles := by
  cases h : u.qr <;> simp [applyQr, h]

theorem connectionUpdate_sessionFiles (l : Nat) (u : ConnUpdate) (s : BridgeState) :
    (connectionUpdate l u s).sessionFiles = s.sessionFiles := by
  simp only [connectionUpdate]
  split_ifs <;> simp [applyQr_sessionFiles, apply_ite BridgeState.sessionFiles]

theorem connectionUpdate_close_lastError (l : Nat) (u : ConnUpdate) (s : BridgeState)
    (hc : u.connection = some "close") :
    (connectionUpdate l u s).lastError =
      some ("Connection closed with code: " ++ reprReason u.statusCode) := by
  simp only [connectionUpdate]
  rw [if_pos hc]
  split <;> rfl

theorem connectionUpdate_close_pending (l : Nat) (u : ConnUpdate) (s : BridgeState)
    (hc : u.connection = some "close") (hr : u.statusCode ≠ some l) :
    (connectionUpdate l u s).pendingRestart =
      some (if u.statusCode = some 405 then 60000 else 5000) := by
  simp only [connectionUpdate]
  rw [if_pos hc, if_pos hr]

theorem connectionUpdate_close_loggedOut_pending (l : Nat) (u : ConnUpdate)
    (s : BridgeState) (hc : u.connection = some "close")
    (hr : u.statusCode = some l) :
    (connectionUpdate l u s).pendingRestart = s.pendingRestart := by
  simp only [connectionUpdate]
  rw [if_pos hc, if_neg (show ¬u.statusCode ≠ some l by simp [hr])]
  exact applyQr_pendingRestart u s

theorem startBridge_pendingRestart (e : Option String) (s : BridgeState) :
    (startBridge e s).pendingRestart = s.pendingRestart := by
  simp only [startBridge]
  cases e <;> split_ifs <;> rfl

theorem startBridge_qrBase64 (e : Option String) (s : BridgeState) :
    (startBridge e s).qrBase64 = s.qrBase64 := by
  simp only [startBridge]
  cases e <;> split_ifs <;> rfl

theorem startBridge_lastError_none (e : Option String) (s : BridgeState)
    (h : (startBridge e s).lastError = none) : s.lastError = none := by
  cases e with
  | some m =>
      simp only [startBridge] at h
      simp at h
  | none =>
      simp only [startBridge] at h
      split at h <;> exact h

theorem strContainsL_append_right (p : List Char) (xs ys : List Char)
    (h : strContainsL p ys = true) : strContainsL p (xs ++ ys) = true := by
  induction xs with
  | nil => simpa using h
  | cons x xs ih =>
      simp only [List.cons_append, strContainsL, Bool.or_eq_true]
      exact Or.inr ih

theorem strContains_append_right (a b pat : String)
    (h : strContains b pat = true) : strContains (a ++ b) pat = true := by
  unfold strContains at h ⊢
  rw [String.data_append]
  exact strContainsL_append_right _ _ _ h

theorem unlinkFiles_self (l : List String) : unlinkFiles l l = some [] := by
  induction l with
  | nil => rfl
  | cons a as ih =>
      have h1 : unlink (a :: as) a = some as := by
        simp [unlink, List.erase_cons_head]
      simp only [unlinkFiles, h1]
      exact ih

theorem invalidate_eq_empty (l : List String) : invalidate l = some [] :=
  unlinkFiles_self l

theorem clearSessionFiles_eq (l : List String) : clearSessionFiles l = [] := by
  simp [clearSessionFiles, invalidate_eq_empty]

theorem stopped_ne_connected (r : String) :
    ("Stopped (Reason: " ++ r ++ ")") ≠ "CONNECTED" := by
  intro h
  have hlen := congrArg String.length h
  rw [String.length_append, String.length_append] at hlen
  have e1 : ("Stopped (Reason: " : String).length = 17 := by decide
  have e2 : ((")" : String)).length = 1 := by decide
  have e3 : ("CONNECTED" : String).length = 9 := by decide
  rw [e1, e2, e3] at hlen
  omega

theorem startBridge_clears_on_405 (e : Option String) (s : BridgeState)
    (h : (match s.lastError with
          | some m => strContains m "405"
          | none => false) = true) :
    (startBridge e s).sessionFiles = [] := by
  simp only [startBridge]
  by_cases hl : 0 < s.sessionFiles.length
  · cases e <;> simp [h, hl, clearSessionFiles_eq]
  · have hnil : s.sessionFiles = [] := by
      cases hsf : s.sessionFiles with
      | nil => rfl
      | cons a as => rw [hsf] at hl; simp at hl
    cases e <;> simp [h, hl, hnil, clearSessionFiles_eq]

theorem startBridge_keeps_files_of_clean_error (e : Option String) (s : BridgeState)
    (h : (match s.lastError with
          | some m => strContains m "405"
          | none => false) = false) :
    (startBridge e s).sessionFiles = s.sessionFiles := by
  simp only [startBridge]
  cases e <;> simp [h]

theorem qrTimeoutFire_connectionStatus (s : BridgeState) :
    (qrTimeoutFire s).connectionStatus = s.connectionStatus := by
  unfold qrTimeoutFire
  split <;> rfl

theorem qrTimeoutFire_qrBase64 (s : BridgeState) :
    (qrTimeoutFire s).qrBase64 = s.qrBase64 := by
  unfold qrTimeoutFire
  split <;> rfl

theorem qrTimeoutFire_pendingRestart (s : BridgeState) :
    (qrTimeoutFire s).pendingRestart = s.pendingRestart := by
  unfold qrTimeoutFire
  split <;> rfl

theorem qrTimeoutFire_lastError_none (s : BridgeState)
    (h : (qrTimeoutFire s).lastError = none) : s.lastError = none := by
  unfold qrTimeoutFire at h
  split at h
  · simp at h
  · exact h


/-- The send handler never mutates the lifecycle state (every branch of src/index.js lines 176-196 returns a response without writing the globals). -/
theorem sendMessageHandler_state (token : String) (auth : Option String)
    (sp : Bool) (f : String → String → Except String Unit) (dest msg : String)
    (s : BridgeState) : (sendMessageHandler token auth sp f dest msg s).2 = s := by
  simp only [sendMessageHandler]
  split_ifs <;> try rfl
  split <;> rfl

/-- The connection.update handler preserves the invariant that the CONNECTED status is only ever paired with an absent pairing challenge. -/
theorem inv_connectionUpdate (l : Nat) (u : ConnUpdate) (s : BridgeState)
    (hs : s.connectionStatus = "CONNECTED" → s.qrBase64 = none) :
    (connectionUpdate l u s).connectionStatus = "CONNECTED" →
    (connectionUpdate l u s).qrBase64 = none := by
  intro h
  simp only [connectionUpdate] at h ⊢
  by_cases hc : u.connection = some "close"
  · rw [if_pos hc] at h
    split at h <;> exact absurd h (stopped_ne_connected _)
  · rw [if_neg hc] at h ⊢
    by_cases ho : u.connection = some "open"
    · rw [if_pos ho]
    · rw [if_neg ho] at h ⊢
      cases hqq : u.qr with
      | some q => simp [applyQr, hqq] at h
      | none =>
          simp only [applyQr, hqq] at h ⊢
          exact hs h

/-- startBridge never produces the CONNECTED status, so it preserves the CONNECTED-implies-no-challenge invariant vacuously. -/
theorem inv_startBridge (e : Option String) (s : BridgeState) :
    (startBridge e s).connectionStatus = "CONNECTED" →
    (startBridge e s).qrBase64 = none := by
  intro h
  exfalso
  cases e with
  | some m =>
      simp only [startBridge] at h
      simp at h
  | none =>
      simp only [startBridge] at h
      split at h <;> simp at h

/-- Claim C1, counterexample to the claim as stated: processing a close event with raw code 405 while a credential file is persisted leaves the 60-second restart timer pending but does NOT empty the credential folder; the deletion only happens at the next start attempt (src/index.js lines 66-78 versus 139-158). -/
theorem C1_cex :
    (connectionUpdate 401 ⟨some "close", some 405, none⟩
        (initState ["creds.json"])).pendingRestart = some 60000 ∧
    (connectionUpdate 401 ⟨some "close", some 405, none⟩
        (initState ["creds.json"])).sessionFiles = ["creds.json"] ∧
    (connectionUpdate 401 ⟨some "close", some 405, none⟩
        (initState ["creds.json"])).sessionFiles ≠ [] := by
  refine ⟨by decide, by decide, by decide⟩

/-- Claim C1, amended: for a raw disconnect code of 405, the classifier yields InvalidateAndRetryAfter(60 s) and after the close event a restart timer of 60 seconds is pending; the persisted credential set is emptied when that timer fires and the next start attempt begins, not at close processing. -/
theorem C1_thm (l : Nat) (u : ConnUpdate) (s : BridgeState) (e : Option String)
    (hl : l ≠ 405) (hc : u.connection = some "close")
    (hr : u.statusCode = some 405) :
    classifySpec l u.statusCode = RecAction.InvalidateAndRetryAfter 60000 ∧
    (connectionUpdate l u s).pendingRestart = some 60000 ∧
    (startBridge e
        { connectionUpdate l u s with pendingRestart := none }).sessionFiles = [] := by
  have hne : u.statusCode ≠ some l := by
    rw [hr]
    intro hx
    injection hx with hx2
    exact hl hx2.symm
  refine ⟨?_, ?_, ?_⟩
  · have h5 : (some 405 : Option Nat) ≠ some l := by
      intro hx
      injection hx with hx2
      exact hl hx2.symm
    rw [hr]
    simp [classifySpec, h5]
  · rw [connectionUpdate_close_pending l u s hc hne, hr]
    simp
  · apply startBridge_clears_on_405
    have hle : ({ connectionUpdate l u s with pendingRestart := none } :
        BridgeState).lastError =
        some ("Connection closed with code: " ++ reprReason u.statusCode) :=
      connectionUpdate_close_lastError l u s hc
    rw [hle, hr]
    show strContains ("Connection closed with code: " ++ reprReason (some 405)) "405" = true
    exact strContains_append_right _ _ _ (by decide)

/-- Witness for C1_thm at sentinel 401, code 405 and one persisted credential file. -/
theorem C1_witness :
    classifySpec 401 (some 405) = RecAction.InvalidateAndRetryAfter 60000 ∧
    (connectionUpdate 401 ⟨some "close", some 405, none⟩
        (initState ["creds.json"])).pendingRestart = some 60000 ∧
    (startBridge none
        { connectionUpdate 401 ⟨some "close", some 405, none⟩
            (initState ["creds.json"]) with
          pendingRestart := none }).sessionFiles = [] :=
  C1_thm 401 ⟨some "close", some 405, none⟩ (initState ["creds.json"]) none
    (by decide) rfl rfl

/-- Claim C2: for a raw disconnect code equal to the logged-out sentinel the classifier yields NoRetry, the close processing leaves the pending-restart timer exactly as it was (schedules nothing), and no other operation of the lifecycle core (startBridge, the QR-wait timeout) ever schedules a restart timer, so no automatic reconnect is ever attempted after a logged-out close. -/
theorem C2_thm (l : Nat) (u : ConnUpdate) (s : BridgeState)
    (hc : u.connection = some "close") (hr : u.statusCode = some l) :
    classifySpec l u.statusCode = RecAction.NoRetry ∧
    (connectionUpdate l u s).pendingRestart = s.pendingRestart ∧
    (∀ (e : Option String) (t : BridgeState),
        (startBridge e t).pendingRestart = t.pendingRestart) ∧
    (∀ t : BridgeState, (qrTimeoutFire t).pendingRestart = t.pendingRestart) := by
  refine ⟨?_, connectionUpdate_close_loggedOut_pending l u s hc hr,
    startBridge_pendingRestart, qrTimeoutFire_pendingRestart⟩
  simp [classifySpec, hr]

/-- Witness for C2_thm at sentinel 401 with no timer pending: none remains pending. -/
theorem C2_witness :
    classifySpec 401 (some 401) = RecAction.NoRetry ∧
    (connectionUpdate 401 ⟨some "close", some 401, none⟩
        (initState [])).pendingRestart = none :=
  ⟨(C2_thm 401 ⟨some "close", some 401, none⟩ (initState []) rfl rfl).1,
   (C2_thm 401 ⟨some "close", some 401, none⟩ (initState []) rfl rfl).2.1⟩

/-- Claim C3: for every raw disconnect code other than the logged-out sentinel and 405, including an absent code, the classifier yields RetryAfter(5 s) and the close processing schedules a restart with a 5000 ms delay. -/
theorem C3_thm (l : Nat) (u : ConnUpdate) (s : BridgeState)
    (hc : u.connection = some "close")
    (h1 : u.statusCode ≠ some l) (h2 : u.statusCode ≠ some 405) :
    classifySpec l u.statusCode = RecAction.RetryAfter 5000 ∧
    (connectionUpdate l u s).pendingRestart = some 5000 := by
  constructor
  · simp [classifySpec, h1, h2]
  · rw [connectionUpdate_close_pending l u s hc h1, if_neg h2]

/-- Witness for C3_thm at sentinel 401 with the absent (null) code. -/
theorem C3_witness :
    classifySpec 401 none = RecAction.RetryAfter 5000 ∧
    (connectionUpdate 401 ⟨some "close", none, none⟩
        (initState [])).pendingRestart = some 5000 :=
  C3_thm 401 ⟨some "close", none, none⟩ (initState []) rfl (by decide) (by decide)

/-- Claim C4, counterexample to the claim as stated: with the state Stopped (not Connected) but the socket object initialized, an authorized send request is attempted anyway and the library failure comes back as the caught 500 error outcome, which is neither the NotConnected (socket-not-initialized) failure nor a success; the handler guards on socket presence, not on the connection state (src/index.js lines 184-195). -/
theorem C4_cex :
    ({ initState [] with connectionStatus := "Stopped (Reason: 405)" } :
        BridgeState).connectionStatus ≠ "CONNECTED" ∧
    (sendMessageHandler "token123" (some "Bearer token123") true
        (fun _ _ => Except.error "Connection Closed") "15551234567" "hello"
        { initState [] with connectionStatus := "Stopped (Reason: 405)" }).1 =
      SendOutcome.sendError "Connection Closed" ∧
    SendOutcome.sendError "Connection Closed" ≠ SendOutcome.noSocket ∧
    SendOutcome.sendError "Connection Closed" ≠ SendOutcome.sent := by
  refine ⟨by decide, by decide, by decide, by decide⟩

/-- The outcome of the send handler, characterized over all inputs: an
unauthorized request is refused, an authorized request with no socket
object yields the socket-not-initialized failure, and an authorized
request with a socket present attempts the send and reports the library
result (success, or the caught failure message). -/
theorem sendMessageHandler_outcome (token : String) (auth : Option String)
    (sp : Bool) (f : String → String → Except String Unit) (dest msg : String)
    (s : BridgeState) :
    (sendMessageHandler token auth sp f dest msg s).1 =
      if auth = some ("Bearer " ++ token) then
        if sp then
          match f (digitsOnly dest ++ "@s.whatsapp.net") msg with
          | Except.ok _ => SendOutcome.sent
          | Except.error m => SendOutcome.sendError m
        else SendOutcome.noSocket
      else SendOutcome.unauthorized := by
  simp only [sendMessageHandler]
  by_cases ha : auth = some ("Bearer " ++ token)
  · by_cases hsp : sp = true
    · simp only [ha, hsp, if_true, if_pos]
      simp
      split <;> rfl
    · simp [ha, hsp]
  · simp [ha]

/-- Claim C4, amended: requestSend never mutates the StatusSnapshot and
never lets an exception escape (the handler is a total function of its
inputs); the NotConnected-class failure (HTTP 503, socket not
initialized) is returned exactly when the caller is authorized and no
socket object exists, regardless of the connection state; and whenever a
socket exists, the send is attempted even while not Connected and the
library result (success, or the caught failure message) is returned
synchronously. -/
theorem C4_thm (token : String) (auth : Option String) (sp : Bool)
    (f : String → String → Except String Unit) (dest msg : String)
    (s : BridgeState) :
    (sendMessageHandler token auth sp f dest msg s).2 = s ∧
    getStatus (sendMessageHandler token auth sp f dest msg s).2 = getStatus s ∧
    ((sendMessageHandler token auth sp f dest msg s).1 = SendOutcome.noSocket ↔
      auth = some ("Bearer " ++ token) ∧ sp = false) ∧
    (auth = some ("Bearer " ++ token) → sp = true →
      (sendMessageHandler token auth sp f dest msg s).1 =
        match f (digitsOnly dest ++ "@s.whatsapp.net") msg with
        | Except.ok _ => SendOutcome.sent
        | Except.error m => SendOutcome.sendError m) := by
  refine ⟨sendMessageHandler_state token auth sp f dest msg s,
    by rw [sendMessageHandler_state], ?_, ?_⟩
  · rw [sendMessageHandler_outcome]
    by_cases ha : auth = some ("Bearer " ++ token)
    · cases hsp : sp
      · simp [ha]
      · rw [if_pos ha, if_pos rfl]
        cases hf : f (digitsOnly dest ++ "@s.whatsapp.net") msg <;> simp [ha]
    · simp [ha]
  · intro ha hsp
    rw [sendMessageHandler_outcome, if_pos ha, if_pos hsp]

/-- Witness for C4_thm: an authorized request with no socket yields the
NotConnected failure with an unchanged state, and an authorized request
with a socket present while the state is not Connected returns the
library failure message. -/
theorem C4_witness :
    (sendMessageHandler "t" (some "Bearer t") false
        (fun _ _ => Except.ok ()) "123" "hi" (initState [])).2 = initState [] ∧
    (sendMessageHandler "t" (some "Bearer t") false
        (fun _ _ => Except.ok ()) "123" "hi" (initState [])).1 =
      SendOutcome.noSocket ∧
    (sendMessageHandler "t" (some "Bearer t") true
        (fun _ _ => Except.error "Timed Out") "123" "hi" (initState [])).1 =
      SendOutcome.sendError "Timed Out" :=
  ⟨(C4_thm "t" (some "Bearer t") false (fun _ _ => Except.ok ()) "123" "hi"
      (initState [])).1,
   (C4_thm "t" (some "Bearer t") false (fun _ _ => Except.ok ()) "123" "hi"
      (initState [])).2.2.1.mpr ⟨rfl, rfl⟩,
   (C4_thm "t" (some "Bearer t") true (fun _ _ => Except.error "Timed Out")
      "123" "hi" (initState [])).2.2.2 rfl rfl⟩

/-- Claim C5, counterexample to the claim as stated: after a QR challenge, a transient close and the restart firing, the state is a new Starting while the stale pairing challenge is still present — the challenge is NOT cleared on transition to a new Starting (startBridge never writes qrBase64, src/index.js lines 57-122). -/
theorem C5_cex :
    (startBridge none
        { connectionUpdate 401 ⟨some "close", some 500, none⟩
            (connectionUpdate 401 ⟨none, none, some "QRDATA"⟩ (initState [])) with
          pendingRestart := none }).connectionStatus =
      "Starting WhatsApp Library..." ∧
    (startBridge none
        { connectionUpdate 401 ⟨some "close", some 500, none⟩
            (connectionUpdate 401 ⟨none, none, some "QRDATA"⟩ (initState [])) with
          pendingRestart := none }).qrBase64 = some (toDataURL "QRDATA") ∧
    some (toDataURL "QRDATA") ≠ (none : Option String) := by
  refine ⟨by decide, by decide, by decide⟩

/-- Claim C5, amended: the pairing challenge is cleared on every transition to Connected (the open branch), but startBridge leaves the challenge untouched, so a stale challenge can still be observed in a new Starting (and in Stopped) states. -/
theorem C5_thm (l : Nat) (u : ConnUpdate) (s : BridgeState)
    (ho : u.connection = some "open") :
    (connectionUpdate l u s).qrBase64 = none ∧
    (connectionUpdate l u s).connectionStatus = "CONNECTED" ∧
    (∀ (e : Option String) (t : BridgeState),
        (startBridge e t).qrBase64 = t.qrBase64) := by
  have hnc : ¬u.connection = some "close" := by simp [ho]
  refine ⟨?_, ?_, startBridge_qrBase64⟩
  · simp only [connectionUpdate]
    rw [if_neg hnc, if_pos ho]
  · simp only [connectionUpdate]
    rw [if_neg hnc, if_pos ho]

/-- Witness for C5_thm: an open event after a QR challenge leaves no challenge. -/
theorem C5_witness :
    (connectionUpdate 401 ⟨some "open", none, none⟩
        (connectionUpdate 401 ⟨none, none, some "Q"⟩ (initState []))).qrBase64 =
      none :=
  (C5_thm 401 ⟨some "open", none, none⟩
      (connectionUpdate 401 ⟨none, none, some "Q"⟩ (initState [])) rfl).1

/-- Claim C6: lastErrorMessage is cleared exactly on pairing-challenge receipt or successful connection-open: a QR event (without a simultaneous close) clears it, an open event clears it, any update that clears it carries a QR or an open signal, and neither startBridge nor the QR-wait timeout nor the send handler ever clears it. -/
theorem C6_thm :
    (∀ (l : Nat) (u : ConnUpdate) (s : BridgeState),
        u.qr.isSome = true → u.connection ≠ some "close" →
        (connectionUpdate l u s).lastError = none) ∧
    (∀ (l : Nat) (u : ConnUpdate) (s : BridgeState),
        u.connection = some "open" →
        (connectionUpdate l u s).lastError = none) ∧
    (∀ (l : Nat) (u : ConnUpdate) (s : BridgeState),
        (connectionUpdate l u s).lastError = none → s.lastError ≠ none →
        u.qr.isSome = true ∨ u.connection = some "open") ∧
    (∀ (e : Option String) (s : BridgeState),
        (startBridge e s).lastError = none → s.lastError = none) ∧
    (∀ s : BridgeState, (qrTimeoutFire s).lastError = none → s.lastError = none) ∧
    (∀ (token : String) (auth : Option String) (sp : Bool)
        (f : String → String → Except String Unit) (dest msg : String)
        (s : BridgeState),
        (sendMessageHandler token auth sp f dest msg s).2.lastError = s.lastError) := by
  refine ⟨?_, ?_, ?_, startBridge_lastError_none, qrTimeoutFire_lastError_none, ?_⟩
  · intro l u s hq hnc
    simp only [connectionUpdate]
    rw [if_neg hnc]
    split
    · rfl
    · cases hqq : u.qr with
      | some q => simp [applyQr, hqq]
      | none => rw [hqq] at hq; simp at hq
  · intro l u s ho
    have hnc : ¬u.connection = some "close" := by simp [ho]
    simp only [connectionUpdate]
    rw [if_neg hnc, if_pos ho]
  · intro l u s h hne
    by_cases hc : u.connection = some "close"
    · rw [connectionUpdate_close_lastError l u s hc] at h
      simp at h
    · by_cases ho : u.connection = some "open"
      · exact Or.inr ho
      · left
        cases hqq : u.qr with
        | some q => simp [hqq]
        | none =>
            exfalso
            simp only [connectionUpdate] at h
            rw [if_neg hc, if_neg ho] at h
            simp only [applyQr, hqq] at h
            exact hne h
  · intro token auth sp f dest msg s
    rw [sendMessageHandler_state]

/-- Witness for C6_thm, first conjunct: a QR event clears a previously recorded error. -/
theorem C6_witness :
    (connectionUpdate 401 ⟨none, none, some "Q"⟩
        { initState [] with lastError := some "boom" }).lastError = none :=
  C6_thm.1 401 ⟨none, none, some "Q"⟩ { initState [] with lastError := some "boom" }
    rfl (by decide)

/-- Claim C7: when the bounded QR-wait timer fires with no challenge received and the state still Starting, the diagnostic note is recorded in lastErrorMessage and appended to the observability sink, while the connection state, the challenge, the pending-restart timer and the credential files are all unchanged: no forced transition or restart. -/
theorem C7_thm (s : BridgeState) (h1 : s.qrBase64 = none)
    (h2 : s.connectionStatus = "Starting WhatsApp Library...") :
    (qrTimeoutFire s).lastError =
      some "QR code timeout - possible network/firewall issue" ∧
    (qrTimeoutFire s).sink = s.sink ++ qrTimeoutMessages ∧
    (qrTimeoutFire s).connectionStatus = s.connectionStatus ∧
    (qrTimeoutFire s).qrBase64 = s.qrBase64 ∧
    (qrTimeoutFire s).pendingRestart = s.pendingRestart ∧
    (qrTimeoutFire s).sessionFiles = s.sessionFiles := by
  unfold qrTimeoutFire
  rw [if_pos (⟨h1, h2⟩ : s.qrBase64 = none ∧
      s.connectionStatus = "Starting WhatsApp Library...")]
  exact ⟨rfl, rfl, rfl, rfl, rfl, rfl⟩

/-- Witness for C7_thm at the Starting state with no challenge. -/
theorem C7_witness :
    (qrTimeoutFire
        { initState [] with
          connectionStatus := "Starting WhatsApp Library..." }).lastError =
      some "QR code timeout - possible network/firewall issue" :=
  (C7_thm { initState [] with connectionStatus := "Starting WhatsApp Library..." }
      rfl rfl).1

/-- Claim C8: in every state reachable from process start through the asynchronous steps, the CONNECTED status is never observed together with a non-empty pairing challenge. -/
theorem C8_thm (l : Nat) (s : BridgeState) (hr : Reachable l s) :
    s.connectionStatus = "CONNECTED" → s.qrBase64 = none := by
  induction hr with
  | init files => intro h; simp [initState] at h
  | step hprev hstep ih =>
      cases hstep with
      | update u => exact inv_connectionUpdate l u _ ih
      | start e => exact inv_startBridge e _
      | qrTimeout =>
          intro h
          rw [qrTimeoutFire_qrBase64]
          refine ih ?_
          rw [← qrTimeoutFire_connectionStatus]
          exact h
      | restartFire d e hp => exact inv_startBridge e _

/-- Witness for C8_thm at the reachable state produced by an open event from the initial state. -/
theorem C8_witness :
    (connectionUpdate 401 ⟨some "open", none, none⟩ (initState [])).qrBase64 =
      none :=
  C8_thm 401 _
    (Reachable.step (Reachable.init [])
      (Step.update ⟨some "open", none, none⟩ (initState []))) (by decide)

/-- Claim C9: invalidation is idempotent — deleting every listed credential file leaves the store empty and succeeds (no failed unlink), and invoking it again on the now-empty store again succeeds and leaves it empty. -/
theorem C9_thm (folder : List String) :
    invalidate folder = some [] ∧ invalidate [] = some [] :=
  ⟨invalidate_eq_empty folder, rfl⟩

/-- Claim C10: credential invalidation on restart is decided by a substring match on the recorded error text: after a close whose raw code prints with 405 as a substring of its decimal form (1405 and 4050 included), the next start attempt deletes all persisted session files; conversely a start attempt made when lastError has been cleared leaves the files untouched. -/
theorem C10_thm (l : Nat) (u : ConnUpdate) (s : BridgeState) (n : Nat)
    (e : Option String)
    (hc : u.connection = some "close") (hn : u.statusCode = some n)
    (h405 : strContains (Nat.repr n) "405" = true) :
    (startBridge e
        { connectionUpdate l u s with pendingRestart := none }).sessionFiles = [] ∧
    (∀ (e2 : Option String) (t : BridgeState), t.lastError = none →
        (startBridge e2 t).sessionFiles = t.sessionFiles) := by
  constructor
  · apply startBridge_clears_on_405
    have hle : ({ connectionUpdate l u s with pendingRestart := none } :
        BridgeState).lastError =
        some ("Connection closed with code: " ++ reprReason u.statusCode) :=
      connectionUpdate_close_lastError l u s hc
    rw [hle, hn]
    show strContains ("Connection closed with code: " ++ reprReason (some n))
        "405" = true
    exact strContains_append_right _ _ _ h405
  · intro e2 t ht
    apply startBridge_keeps_files_of_clean_error
    rw [ht]

/-- Witness for C10_thm at raw code 1405 (a strict superstring of 405) with two persisted files, and the converse at a cleared lastError. -/
theorem C10_witness :
    strContains (Nat.repr 1405) "405" = true ∧
    (startBridge none
        { connectionUpdate 401 ⟨some "close", some 1405, none⟩
            (initState ["creds.json", "app-state-sync.json"]) with
          pendingRestart := none }).sessionFiles = [] ∧
    (startBridge none (initState ["creds.json"])).sessionFiles = ["creds.json"] :=
  ⟨by decide,
   (C10_thm 401 ⟨some "close", some 1405, none⟩
       (initState ["creds.json", "app-state-sync.json"]) 1405 none rfl rfl
       (by decide)).1,
   (C10_thm 401 ⟨some "close", some 1405, none⟩
       (initState ["creds.json", "app-state-sync.json"]) 1405 none rfl rfl
       (by decide)).2 none (initState ["creds.json"]) rfl⟩

end Bridge
